import Mathlib

/-!
# Verification of the weather-chatbot NLP core (`nlp_engine.py`)

This file shallowly embeds the message-interpretation and reply-formatting
pipeline of the repository (intent rule cascade, slot extraction, message
interpreter, reply formatter) as executable Lean definitions and proves the
specification's testable properties about them.

Conventions of the embedding:
* Python strings are Lean `String`s; `text.lower()` is modelled as ASCII
  lowercasing (all cue strings in the source are ASCII).
* Python `None` / optional values are `Option`; Python truthiness of strings
  (`"" `is falsy) is modelled explicitly by `pyTruthy`.
* Python floats are modelled as `Rat`; fixed-point rendering `f"{x:.1f}"`
  is modelled by `fmtF` with a round-half-to-even tie rule (ties never occur
  at the inputs considered in the theorems below).
* Code that can raise (formatting `None` with `:.1f`) returns `Option String`,
  with `none` standing for a raised exception.
* The trained intent model (`_MODEL`) and the sentiment analyzer (`_SIA`) are
  process-wide optional collaborators loaded from external artifacts; they are
  modelled as opaque optional function parameters, consulted exactly as in the
  source.
-/

/-! ## Character classes (ASCII, mirroring Python `str` methods and `re` classes) -/

/-- Python `\s` on ASCII: space, tab, newline, vertical tab, form feed, carriage return. -/
def isWsC (c : Char) : Bool :=
  c.toNat = 32 || c.toNat = 9 || c.toNat = 10 || c.toNat = 11 || c.toNat = 12 || c.toNat = 13

def isUpperC (c : Char) : Bool := 65 ≤ c.toNat && c.toNat ≤ 90

def isLowerAlphaC (c : Char) : Bool := 97 ≤ c.toNat && c.toNat ≤ 122

def isAlphaC (c : Char) : Bool := isUpperC c || isLowerAlphaC c

def isDigitC (c : Char) : Bool := 48 ≤ c.toNat && c.toNat ≤ 57

/-- Python regex `\w`: letters, digits, underscore. -/
def isWordC (c : Char) : Bool := isAlphaC c || isDigitC c || c.toNat = 95

/-- The character class `[a-zA-Z\s,.'-]` of the location regexes. -/
def isLocClassC (c : Char) : Bool :=
  isAlphaC c || isWsC c || c.toNat = 44 || c.toNat = 46 || c.toNat = 39 || c.toNat = 45

/-- ASCII lowercasing of one character (Python `str.lower` on ASCII input). -/
def lowerC (c : Char) : Char :=
  if 65 ≤ c.toNat && c.toNat ≤ 90 then Char.ofNat (c.toNat + 32) else c

/-- Python `text.lower()` (ASCII fragment). -/
def lowerAscii (s : String) : String := String.mk (s.data.map lowerC)

def stripLeadChars (cs : List Char) : List Char := cs.dropWhile isWsC

/-- Python `str.strip()`: drop whitespace from both ends. -/
def stripChars (cs : List Char) : List Char :=
  ((stripLeadChars cs).reverse.dropWhile isWsC).reverse

def pyStrip (s : String) : String := String.mk (stripChars s.data)

/-! ## Substring containment (Python `x in t` on strings) -/

def prefAt (needle hay : List Char) : Bool :=
  match needle, hay with
  | [], _ => true
  | _ :: _, [] => false
  | n :: ns, h :: hs => n == h && prefAt ns hs

def hasSub (hay needle : List Char) : Bool :=
  prefAt needle hay ||
    match hay with
    | [] => false
    | _ :: t => hasSub t needle

/-- Python `x in t` for strings: `x` occurs as a contiguous substring of `t`. -/
def pyContains (t x : String) : Bool := hasSub t.data x.data

/-- Python `any(x in t for x in cues)`. -/
def anyCue (t : String) (cues : List String) : Bool := cues.any (fun x => pyContains t x)

/-! ## Intent classifier (`nlp_engine._predict_intent_rules`, `interpret_message` stage logic) -/

/-- The fixed 11-element intent set `WEATHER_INTENTS` of `nlp_engine.py`. -/
def WEATHER_INTENTS : List String :=
  ["temperature_now", "conditions_now", "wind_now", "humidity_now", "rain_now",
   "snow_now", "tomorrow_summary", "tomorrow_rain", "next3days_summary",
   "week_summary", "help"]

/-- `_predict_intent_rules(text)`: the deterministic keyword rule cascade,
branch for branch from the source. -/
def predict_intent_rules (text : String) : String :=
  let t := lowerAscii text
  if anyCue t ["help", "what can you do", "commands", "examples"] then "help"
  else
    let has_tomorrow := pyContains t "tomorrow"
    let has_week := anyCue t ["this week", "next 7", "7 day", "week forecast", "weekly"]
    let has_3day := anyCue t ["next 3", "3 day", "three day", "next three"]
    if anyCue t ["temperature", "temp", "how hot", "how cold", "degrees"] then "temperature_now"
    else if anyCue t ["wind", "windy", "gust"] then "wind_now"
    else if anyCue t ["humidity", "humid"] then "humidity_now"
    else if anyCue t ["snow", "snowfall"] then
      (if !has_tomorrow then "snow_now" else "tomorrow_summary")
    else if anyCue t ["rain", "raining", "precip", "shower"] then
      (if has_tomorrow then "tomorrow_rain" else "rain_now")
    else if anyCue t ["condition", "weather like", "sunny", "cloudy", "clear", "overcast"] then
      "conditions_now"
    else if has_tomorrow then "tomorrow_summary"
    else if has_3day then "next3days_summary"
    else if has_week then "week_summary"
    else "conditions_now"

/-- `_predict_intent_ml(text)`: the trained-model stage. The pickled model is an
external artifact; it is modelled as an opaque optional classifier returning
`none` when the model is absent or classification raised (the source catches
any exception and returns `None`). -/
def predict_intent_ml (model : Option (String → Option String)) (text : String) : Option String :=
  match model with
  | none => none
  | some m => m text

/-- `_predict_intent_ml(msg) or _predict_intent_rules(msg)` (line 196 of
`nlp_engine.py`): the two-stage resolution, with Python `or` falling through on
a falsy (`None` or empty) first stage. -/
def classify (model : Option (String → Option String)) (text : String) : String :=
  match predict_intent_ml model text with
  | some label => if label == "" then predict_intent_rules text else label
  | none => predict_intent_rules text

/-! ## Location extraction (`nlp_engine._extract_location`)

The three heuristics are `re.search` patterns.  Each is embedded as a
hand-rolled matcher with `re.search`'s leftmost-match semantics; the greedy /
backtracking behaviour of each pattern is forced at every point (argued in the
comments), so each matcher is deterministic.  -/

/-- `\b` before a word character: position 0, or previous character not `\w`. -/
def boundaryB (prev : Option Char) : Bool :=
  match prev with
  | none => true
  | some p => !isWordC p

/-- Case-insensitive (ASCII) literal prefix test. -/
def ciPrefAt (needle hay : List Char) : Bool :=
  match needle, hay with
  | [], _ => true
  | _ :: _, [] => false
  | n :: ns, h :: hs => lowerC n == lowerC h && ciPrefAt ns hs

/-- Tail of heuristic 1 after one of the keywords `in`/`at`/`for`: the pattern
continues `\s+([a-zA-Z\s,.'-]{2,})$`.  Since `\s` is inside the capture class,
the whole-match condition is: the next character is whitespace and everything
after it (at least 2 characters) lies in the class; the captured group is then
stripped, which collapses all the `\s+`/group backtracking splits to the same
result. -/
def kwTail (rest : List Char) : Option (List Char) :=
  match rest with
  | c :: cs2 =>
    if isWsC c && cs2.all isLocClassC && decide (2 ≤ cs2.length) then
      some (stripChars cs2)
    else none
  | [] => none

/-- Try `(?:in|at|for)` (case-insensitive) at the current position, followed by
`kwTail`.  At most one alternative can match at a given position (distinct
first letters), so alternation order is immaterial here. -/
def heur1At (cs : List Char) : Option (List Char) :=
  (if ciPrefAt "in".data cs then kwTail (cs.drop 2) else none) <|>
  (if ciPrefAt "at".data cs then kwTail (cs.drop 2) else none) <|>
  (if ciPrefAt "for".data cs then kwTail (cs.drop 3) else none)

/-- Leftmost scan for heuristic 1, tracking the previous character for `\b`. -/
def heur1Go (prev : Option Char) : List Char → Option (List Char)
  | [] => none
  | c :: rest =>
    match (if boundaryB prev then heur1At (c :: rest) else none) with
    | some r => some r
    | none => heur1Go (some c) rest

/-- Heuristic 1: `re.search(r"\b(?:in|at|for)\s+([a-zA-Z\s,.'-]{2,})$",
text.strip(), re.IGNORECASE)`, returning `m.group(1).strip()`. -/
def locHeur1 (text : String) : Option String :=
  (heur1Go none (stripChars text.data)).map String.mk

/-- Try `weather\s+in\s+([a-zA-Z\s,.'-]{2,})` at the current position.  After
`weather` the greedy `\s+` run is forced (a whitespace character can never
match the literal `i`), likewise after `in`; the captured group is the greedy
class run after the first whitespace, up to stripping. -/
def heur2At (cs : List Char) : Option (List Char) :=
  if ciPrefAt "weather".data cs then
    let r0 := cs.drop 7
    let w1 := r0.takeWhile isWsC
    let r1 := r0.drop w1.length
    if decide (1 ≤ w1.length) && ciPrefAt "in".data r1 then
      match r1.drop 2 with
      | c :: cs2 =>
        if isWsC c then
          let run := cs2.takeWhile isLocClassC
          if decide (2 ≤ run.length) then some (stripChars run) else none
        else none
      | [] => none
    else none
  else none

def heur2Go (prev : Option Char) : List Char → Option (List Char)
  | [] => none
  | c :: rest =>
    match (if boundaryB prev then heur2At (c :: rest) else none) with
    | some r => some r
    | none => heur2Go (some c) rest

/-- Heuristic 2: `re.search(r"\bweather\s+in\s+([a-zA-Z\s,.'-]{2,})", text,
re.IGNORECASE)`, returning `m.group(1).strip()`. -/
def locHeur2 (text : String) : Option String :=
  (heur2Go none text.data).map String.mk

/-- `[A-Z][a-z]+`: one capitalized word.  The greedy `[a-z]+` run is forced:
every continuation of the surrounding pattern starts with `\s`, `,` or `$`. -/
def upWord (cs : List Char) : Option (List Char × List Char) :=
  match cs with
  | c :: r =>
    if isUpperC c then
      let lows := r.takeWhile isLowerAlphaC
      if decide (1 ≤ lows.length) then some (c :: lows, r.drop lows.length) else none
    else none
  | [] => none

/-- Exactly `k` repetitions of `\s+[A-Z][a-z]+` (each forced-greedy). -/
def repWords : Nat → List Char → Option (List Char × List Char)
  | 0, cs => some ([], cs)
  | Nat.succ k, cs =>
    let ws := cs.takeWhile isWsC
    let r := cs.drop ws.length
    if decide (1 ≤ ws.length) then
      match upWord r with
      | some (w, r2) =>
        match repWords k r2 with
        | some (c2, r3) => some (ws ++ (w ++ c2), r3)
        | none => none
      | none => none
    else none

/-- The optional suffix `\s*,\s*[A-Z][a-z]+` (each piece forced-greedy). -/
def commaPart (cs : List Char) : Option (List Char × List Char) :=
  let w1 := cs.takeWhile isWsC
  let r1 := cs.drop w1.length
  match r1 with
  | c :: r2 =>
    if c.toNat = 44 then
      let w2 := r2.takeWhile isWsC
      let r3 := r2.drop w2.length
      match upWord r3 with
      | some (w, r4) => some (w1 ++ (c :: (w2 ++ w)), r4)
      | none => none
    else none
  | [] => none

/-- Given the first word and the remainder, try exactly `k` extra words, then
the optional comma part (greedy: with it before without it), then `\s*$`. -/
def tryK (word rem : List Char) (k : Nat) : Option (List Char) :=
  match repWords k rem with
  | some (c2, r2) =>
    (match commaPart r2 with
     | some (c3, r3) => if r3.all isWsC then some (word ++ (c2 ++ c3)) else none
     | none => none) <|>
    (if r2.all isWsC then some (word ++ c2) else none)
  | none => none

/-- Full pattern 3 at the current position, with the greedy `{0,3}` counter
tried from 3 down to 0. -/
def match3 (cs : List Char) : Option (List Char) :=
  match upWord cs with
  | some (w, rem) => tryK w rem 3 <|> tryK w rem 2 <|> tryK w rem 1 <|> tryK w rem 0
  | none => none

def heur3Go : List Char → Option (List Char)
  | [] => none
  | c :: rest =>
    match match3 (c :: rest) with
    | some r => some r
    | none => heur3Go rest

/-- `len(text.split())`: number of maximal non-whitespace runs. -/
def splitCountGo (inWord : Bool) : List Char → Nat
  | [] => 0
  | c :: rest =>
    if isWsC c then splitCountGo false rest
    else (if inWord then 0 else 1) + splitCountGo true rest

def pySplitCount (s : String) : Nat := splitCountGo false s.data

/-- The temporal-word blocklist of heuristic 3. -/
def BLOCK_WORDS : List String := ["tomorrow", "today", "week", "morning", "evening"]

/-- Heuristic 3:
`re.search(r"([A-Z][a-z]+(?:\s+[A-Z][a-z]+){0,3}(?:\s*,\s*[A-Z][a-z]+)?)\s*$", text)`
guarded by `len(text.split()) >= 2` and the blocklist; a blocked or
under-length match falls through to `None` (it does not resume scanning). -/
def locHeur3 (text : String) : Option String :=
  match heur3Go text.data with
  | some cap =>
    if decide (2 ≤ pySplitCount text) then
      let guess := String.mk (stripChars cap)
      if BLOCK_WORDS.contains (lowerAscii guess) then none else some guess
    else none
  | none => none

/-- `_extract_location(text)`: the three heuristics in source order. -/
def extract_location (text : String) : Option String :=
  locHeur1 text <|> locHeur2 text <|> locHeur3 text

/-! ## Time window and sentiment (`_extract_time_window`, `_sentiment`) -/

/-- `_extract_time_window(text)`: horizon bucket and optional time-of-day
bucket, by substring cues on the lowercased text, in source order. -/
def extract_time_window (text : String) : String × Option String :=
  let t := lowerAscii text
  let horizon :=
    if pyContains t "tomorrow" then "tomorrow"
    else if anyCue t ["next 3", "3 day", "three day"] then "next3days"
    else if anyCue t ["week", "7 day", "next 7"] then "week"
    else "now"
  let tod :=
    if pyContains t "morning" then some "morning"
    else if pyContains t "afternoon" then some "afternoon"
    else if pyContains t "evening" then some "evening"
    else if pyContains t "night" then some "night"
    else none
  (horizon, tod)

/-- `_sentiment(text)`: the optional VADER analyzer is an external collaborator,
modelled as an opaque optional compound-score function. -/
def sentiment (sia : Option (String → Rat)) (text : String) : Option String :=
  match sia with
  | none => none
  | some f =>
    let s := f text
    if (35 : Rat) / 100 ≤ s then some "positive"
    else if s ≤ -((35 : Rat) / 100) then some "negative"
    else some "neutral"

/-! ## Message interpreter (`interpret_message`) -/

/-- The parsed-request record returned by `interpret_message`. -/
structure ParsedRequest where
  intent : String
  horizon : String
  tod : Option String
  coords : Option (Rat × Rat)
  location_label : Option String
  sentiment : Option String
  error : Option String
deriving Repr, DecidableEq

/-- Python truthiness of an optional string: `None` and `""` are falsy. -/
def pyTruthy (s : Option String) : Bool :=
  match s with
  | none => false
  | some t => !(t == "")

/-- Python `a or b` on optional strings. -/
def pyOr (a b : Option String) : Option String :=
  if pyTruthy a then a else b

/-- The coordinate resolution of `interpret_message`: `lat`/`lon` are request
payload values (`Any`); `some none` models a value present but not numerically
parseable (`float(...)` raises), `some (some q)` a parseable one.  Malformed
values yield `coords = None` silently. -/
def pyCoords (lat lon : Option (Option Rat)) : Option (Rat × Rat) :=
  match lat, lon with
  | some la, some lo =>
    match la, lo with
    | some a, some b => some (a, b)
    | _, _ => none
  | _, _ => none

/-- The fixed missing-location prompt of `interpret_message`. -/
def ERROR_PROMPT : String :=
  "Which location should I use? Example: **\"Will it rain in Lisbon tomorrow morning?\"**"

/-- `interpret_message(message, last_location, lat, lon)`, with the optional
trained model and sentiment analyzer as explicit parameters. -/
def interpret_message (model : Option (String → Option String))
    (sia : Option (String → Rat)) (message : String)
    (last_location : Option String) (lat lon : Option (Option Rat)) : ParsedRequest :=
  let msg := pyStrip message
  let coords := pyCoords lat lon
  let location := pyOr (extract_location msg) last_location
  let hz := extract_time_window msg
  let intent := classify model msg
  if coords = none ∧ pyTruthy location = false then
    { intent := intent, horizon := hz.1, tod := hz.2, coords := none,
      location_label := none, sentiment := sentiment sia msg,
      error := some ERROR_PROMPT }
  else
    { intent := intent, horizon := hz.1, tod := hz.2, coords := coords,
      location_label := location, sentiment := sentiment sia msg,
      error := none }

/-! ## Forecast bundle (the shape produced by `weather_service._parse_bundle`)

Numeric readings are `Rat` (Python floats; all values in the theorems below are
exactly representable).  Fields that `_parse_bundle` can leave as `None` are
`Option`; `rain_mm`/`snow_mm` of a daily entry and the hourly
`precip_prob`/`rain_mm`/`snow_mm` are defaulted to `0.0` there and hence total. -/

structure CurrentWx where
  temperature_c : Option Rat
  apparent_c : Option Rat
  humidity_pct : Option Rat
  precip_mm : Option Rat
  rain_mm : Option Rat
  snow_mm : Option Rat
  wind_kmh : Option Rat
  weather_code : Option Int
  time : Option String
deriving Repr, DecidableEq

structure DailyEntry where
  date : String
  tmax_c : Option Rat
  tmin_c : Option Rat
  weather_code : Option Int
  precip_prob_max : Option Rat
  rain_mm : Rat
  snow_mm : Rat
deriving Repr, DecidableEq

structure HourlyEntry where
  time : String
  date_offset : Int
  hour : Nat
  precip_prob : Rat
  rain_mm : Rat
  snow_mm : Rat
  weather_code : Option Int
  wind_kmh : Option Rat
  humidity_pct : Option Rat
deriving Repr, DecidableEq

structure ForecastBundle where
  current : CurrentWx
  daily : List DailyEntry
  hourly : List HourlyEntry
deriving Repr, DecidableEq

/-! ## Numeric rendering (`f"{x:.1f}"`, `f"{x:.0f}"`)

CPython renders a float to fixed precision by correctly rounding its value
with ties to even.  With `Rat` values this is `rhe` below; every value in the
theorems of this file is exactly representable and not a tie, where the model
agrees with CPython exactly. -/

/-- Round the fraction `n / d` (with `d > 0`) to the nearest integer, ties to
even: with `f = ⌊n/d⌋` the fractional part is `(n - f*d)/d`, compared against
`1/2` via `2*(n - f*d)` versus `d`. -/
def rheScaled (n d : Int) : Int :=
  let f := Int.fdiv n d
  let r2 := 2 * (n - f * d)
  if r2 < d then f
  else if d < r2 then f + 1
  else if f % 2 = 0 then f else f + 1

/-- `q * 10^d` rounded to the nearest integer, ties to even, computed on the
reduced numerator and denominator by integer arithmetic only. -/
def rhe10 (q : Rat) (d : Nat) : Int :=
  rheScaled (q.num * (10 : Int) ^ d) (q.den : Int)

/-- Left-pad a digit string with zeros to `d` digits. -/
def padZeros (s : String) (d : Nat) : String :=
  if s.length < d then String.mk (List.replicate (d - s.length) '0') ++ s else s

/-- Python `f"{q:.d}f"`-style fixed-point rendering: `fmtF q 1 = "21.5"`,
`fmtF q 0 = "62"` (no decimal point when `d = 0`).  The sign of a negative
value that rounds to zero is not modelled (CPython prints `-0.0`); no such
value occurs in this development. -/
def fmtF (q : Rat) (d : Nat) : String :=
  let scaled := rhe10 q d
  let sign := if scaled < 0 then "-" else ""
  let n := scaled.natAbs
  if d = 0 then sign ++ toString n
  else sign ++ toString (n / 10 ^ d) ++ "." ++ padZeros (toString (n % 10 ^ d)) d

/-! ## Reply formatter (`nlp_engine.format_weather_reply`)

The result is `Option String`: `none` models an uncaught Python exception
(formatting a `None` value with `:.1f`/`:.0f` raises `TypeError`). -/

/-- The static `_WEATHER_CODE` table. -/
def WEATHER_CODE : List (Int × String) :=
  [(0, "clear sky"), (1, "mainly clear"), (2, "partly cloudy"), (3, "overcast"),
   (45, "fog"), (48, "depositing rime fog"),
   (51, "light drizzle"), (53, "moderate drizzle"), (55, "dense drizzle"),
   (56, "freezing drizzle (light)"), (57, "freezing drizzle (dense)"),
   (61, "slight rain"), (63, "moderate rain"), (65, "heavy rain"),
   (66, "freezing rain (light)"), (67, "freezing rain (heavy)"),
   (71, "slight snow fall"), (73, "moderate snow fall"), (75, "heavy snow fall"),
   (77, "snow grains"),
   (80, "rain showers (slight)"), (81, "rain showers (moderate)"), (82, "rain showers (violent)"),
   (85, "snow showers (slight)"), (86, "snow showers (heavy)"),
   (95, "thunderstorm"), (96, "thunderstorm with hail (slight)"),
   (99, "thunderstorm with hail (heavy)")]

/-- `_WEATHER_CODE.get(code, "unknown")`, where `code` may be `None`. -/
def wdescOf (c : Option Int) : String :=
  match c with
  | some v =>
    match WEATHER_CODE.lookup v with
    | some d => d
    | none => "unknown"
  | none => "unknown"

/-- `_tod_hours(tod)`. -/
def tod_hours (tod : Option String) : Option (Nat × Nat) :=
  match tod with
  | some "morning" => some (6, 12)
  | some "afternoon" => some (12, 18)
  | some "evening" => some (18, 24)
  | some "night" => some (0, 6)
  | _ => none

/-- Map a fallible per-element renderer over a list, failing if any element
fails (a raised exception inside the Python `for` loop aborts the whole call). -/
def mapOpt {α β : Type} (f : α → Option β) : List α → Option (List β)
  | [] => some []
  | x :: xs =>
    match f x, mapOpt f xs with
    | some y, some ys => some (y :: ys)
    | _, _ => none

/-- The fixed help reply (returned without the tone prefix). -/
def HELP_TEXT : String :=
  "You can ask about:\n- temperature, conditions (sunny/cloudy), wind, humidity, rain/snow\n- tomorrow’s forecast, next 3 days, or weekly outlook\n\nExamples:\n• *What\x27s the wind speed in Tokyo?*\n• *Will it rain in Lisbon tomorrow morning?*\n• *3-day forecast for New York*"

/-- The fixed generic capability-description fallback (no tone prefix). -/
def FALLBACK_TEXT : String :=
  "I can help with weather like temperature, conditions, wind, humidity, rain/snow, and forecasts (tomorrow / 3-day / week). Try: **\x27weather in Berlin\x27**."

def TOMORROW_FALLBACK : String :=
  "I couldn\x27t get tomorrow\x27s forecast right now. Please try again."

def NEXT3_FALLBACK : String :=
  "I couldn\x27t get the next 3 days right now. Please try again."

def WEEK_FALLBACK : String :=
  "I couldn\x27t get the weekly forecast right now. Please try again."

/-- The empathetic tone prefix used when sentiment is negative. -/
def TONE_LEAD : String := "I’ve got you — "

/-- The intents served by the "right now" block. -/
def NOW_INTENTS : List String :=
  ["temperature_now", "conditions_now", "wind_now", "humidity_now", "rain_now", "snow_now"]

/-- `format_weather_reply(parsed, bundle, location_label)`, branch for branch
from the source.  The `len(daily) < 2` guard of the tomorrow branch is the
wildcard of the list match; `daily[1]` is the second matched element. -/
def format_weather_reply (parsed : ParsedRequest) (bundle : ForecastBundle)
    (location_label : String) : Option String :=
  let intent := parsed.intent
  let horizon := parsed.horizon
  let tod := parsed.tod
  let cur := bundle.current
  let daily := bundle.daily
  let hourly := bundle.hourly
  let tonePre := if parsed.sentiment = some "negative" then TONE_LEAD else ""
  if intent ∈ NOW_INTENTS ∧ horizon = "now" then
    let parts := ["**" ++ location_label ++ "** right now:"]
    let parts := parts ++
      (if intent = "temperature_now" ∨ intent = "conditions_now" then
        (match cur.temperature_c with
         | some temp => ["- Temperature: **" ++ fmtF temp 1 ++ "°C**"]
         | none => []) ++
        ["- Conditions: **" ++ wdescOf cur.weather_code ++ "**"]
      else [])
    let parts := parts ++
      (if intent = "wind_now" then
        match cur.wind_kmh with
        | some w => ["- Wind: **" ++ fmtF w 0 ++ " km/h**"]
        | none => []
      else [])
    let parts := parts ++
      (if intent = "humidity_now" then
        match cur.humidity_pct with
        | some h => ["- Humidity: **" ++ fmtF h 0 ++ "%**"]
        | none => []
      else [])
    let parts := parts ++
      (if intent = "rain_now" then
        match cur.rain_mm with
        | some r => ["- Rain (last hour): **" ++ fmtF r 1 ++ " mm**"]
        | none => []
      else [])
    let parts := parts ++
      (if intent = "snow_now" then
        match cur.snow_mm with
        | some s => ["- Snowfall (last hour): **" ++ fmtF s 1 ++ " mm**"]
        | none => []
      else [])
    some (tonePre ++ String.intercalate "\n" parts)
  else if horizon = "tomorrow" then
    match daily with
    | _ :: d :: _ =>
      let date := d.date
      let desc := wdescOf d.weather_code
      if intent = "tomorrow_rain" then
        let m0 := "**" ++ location_label ++ "** tomorrow (" ++ date ++ "): "
        let m1 := m0 ++
          (match d.precip_prob_max with
           | some pop => "precipitation probability up to **" ++ fmtF pop 0 ++ "%**. "
           | none => "")
        let m2 := m1 ++ ("expected rain ≈ **" ++ fmtF d.rain_mm 1 ++ " mm**.")
        some (tonePre ++ m2)
      else
        let hourlyReply :=
          match tod_hours tod, hourly with
          | some (hstart, hend), _ :: _ =>
            let vals := hourly.filter
              (fun h => h.date_offset = 1 ∧ hstart ≤ h.hour ∧ h.hour < hend)
            match vals with
            | [] => none
            | _ :: _ =>
              let pop_avg := (vals.map (fun v => v.precip_prob)).sum / (vals.length : Rat)
              let rain_sum := (vals.map (fun v => v.rain_mm)).sum
              some (tonePre ++ ("**" ++ location_label ++ "** tomorrow " ++ tod.getD "" ++
                ": avg precip prob ~ **" ++ fmtF pop_avg 0 ++ "%**, rain sum ~ **" ++
                fmtF rain_sum 1 ++ " mm**."))
          | _, _ => none
        match hourlyReply with
        | some r => some r
        | none =>
          match d.tmin_c, d.tmax_c, d.precip_prob_max with
          | some tmin, some tmax, some pop =>
            some (tonePre ++
              ("**" ++ location_label ++ "** tomorrow (" ++ date ++ "): **" ++ desc ++ "**\n" ++
               "- Min/Max: **" ++ fmtF tmin 1 ++ "°C / " ++ fmtF tmax 1 ++ "°C**\n" ++
               "- Rain: **" ++ fmtF d.rain_mm 1 ++ " mm**, Snow: **" ++ fmtF d.snow_mm 1 ++ " mm**\n" ++
               "- Precip. probability (max): **" ++ fmtF pop 0 ++ "%**"))
          | _, _, _ => none
    | _ => some TOMORROW_FALLBACK
  else if horizon = "next3days" then
    if daily.length < 3 then some NEXT3_FALLBACK
    else
      match mapOpt (fun d =>
          match d.tmin_c, d.tmax_c with
          | some a, some b =>
            some ("- " ++ d.date ++ ": " ++ wdescOf d.weather_code ++ ", " ++
              fmtF a 1 ++ "–" ++ fmtF b 1 ++ "°C, rain " ++ fmtF d.rain_mm 1 ++ " mm")
          | _, _ => none) (daily.take 3) with
      | some ls =>
        some (tonePre ++ String.intercalate "\n"
          (("**" ++ location_label ++ "** – next 3 days:") :: ls))
      | none => none
  else if horizon = "week" then
    if daily.length < 7 then some WEEK_FALLBACK
    else
      match mapOpt (fun d =>
          match d.tmin_c, d.tmax_c with
          | some a, some b =>
            some ("- " ++ d.date ++ ": " ++ wdescOf d.weather_code ++ ", " ++
              fmtF a 1 ++ "–" ++ fmtF b 1 ++ "°C")
          | _, _ => none) (daily.take 7) with
      | some ls =>
        some (tonePre ++ String.intercalate "\n"
          (("**" ++ location_label ++ "** – 7-day outlook:") :: ls))
      | none => none
  else if intent = "help" then some HELP_TEXT
  else some FALLBACK_TEXT

/-! ## Shared concrete fixtures -/

/-- A current-readings record with every field absent. -/
def emptyCurrent : CurrentWx := ⟨none, none, none, none, none, none, none, none, none⟩

/-- A bundle with no data at all. -/
def emptyBundle : ForecastBundle := ⟨emptyCurrent, [], []⟩

/-- A "right now" request with the given intent and no other data. -/
def nowReq (i : String) : ParsedRequest := ⟨i, "now", none, none, none, none, none⟩

def curTempC (t : Rat) : CurrentWx := ⟨some t, none, none, none, none, none, none, none, none⟩

def curWindC (w : Rat) : CurrentWx := ⟨none, none, none, none, none, none, some w, none, none⟩

def curHumC (h : Rat) : CurrentWx := ⟨none, none, some h, none, none, none, none, none, none⟩

def curRainC (r : Rat) : CurrentWx := ⟨none, none, none, none, some r, none, none, none, none⟩

def curSnowC (s : Rat) : CurrentWx := ⟨none, none, none, none, none, some s, none, none, none⟩

/-! ## Theorems -/

/-- An if-then-else of two members of a list is a member of the list. -/
theorem mem_ite {c : Prop} [Decidable c] {l : List String} {a b : String}
    (ha : a ∈ l) (hb : b ∈ l) : (if c then a else b) ∈ l := by
  split
  · exact ha
  · exact hb

/-- Every branch of the rule cascade returns a member of `WEATHER_INTENTS`. -/
theorem rules_mem (t : String) : predict_intent_rules t ∈ WEATHER_INTENTS := by
  unfold predict_intent_rules
  dsimp only
  repeat' first
  | apply mem_ite
  | decide

/-- C1: For every input string (including the empty string), the two-stage
classification — trained-model stage when available, otherwise the rule
cascade — returns exactly one label from the fixed 11-element intent set and
never fails to produce an intent.  The trained model is an external artifact
trained on the 11 intents; its labels are assumed to lie in the intent set. -/
theorem classifier_total (model : Option (String → Option String)) (text : String)
    (hm : ∀ f s l, model = some f → f s = some l → l ∈ WEATHER_INTENTS) :
    classify model text ∈ WEATHER_INTENTS ∧ predict_intent_rules text ∈ WEATHER_INTENTS := by
  refine ⟨?_, rules_mem text⟩
  cases hmod : model with
  | none => simp only [classify, predict_intent_ml]; exact rules_mem text
  | some f =>
    simp only [classify, predict_intent_ml]
    cases hf : f text with
    | none => exact rules_mem text
    | some l =>
      by_cases hl : l = ""
      · subst hl
        simp only [show (("" : String) == "") = true from rfl, if_true]
        exact rules_mem text
      · simp only [beq_eq_false_iff_ne.mpr hl, if_false]
        exact hm f text l hmod hf

/-- Witness for C1 at the empty string with the model stage unavailable. -/
theorem classifier_total_witness :
    classify none "" ∈ WEATHER_INTENTS ∧ predict_intent_rules "" ∈ WEATHER_INTENTS :=
  classifier_total none "" (fun _ _ _ h _ => Option.noConfusion h)

/-- C5: Rule-cascade precedence on the spec's four acceptance examples, with
the trained-model stage unavailable. -/
theorem rule_cascade_examples :
    classify none "help me please" = "help" ∧
    classify none "temperature in Lisbon" = "temperature_now" ∧
    classify none "will it snow tomorrow" = "tomorrow_summary" ∧
    classify none "rain tomorrow morning" = "tomorrow_rain" := by
  refine ⟨by decide, by decide, by decide, by decide⟩

/-- C7: `extract_location` on the spec's two examples, and in general: when
none of the three heuristics matches, no location is extracted. -/
theorem extract_location_spec :
    extract_location "What\x27s the weather in Tokyo" = some "Tokyo" ∧
    extract_location "xyz" = none ∧
    ∀ s : String, locHeur1 s = none → locHeur2 s = none → locHeur3 s = none →
      extract_location s = none := by
  refine ⟨by decide, by decide, ?_⟩
  intro s h1 h2 h3
  unfold extract_location
  rw [h1, h2, h3]
  rfl

/-- Witness for C7's general clause at the concrete input `"xyz"`. -/
theorem extract_location_spec_witness : extract_location "xyz" = none :=
  extract_location_spec.2.2 "xyz" (by decide) (by decide) (by decide)

/-- C10: On the message `"next three"` (remembered location present, trained
model absent) the rule classifier picks `next3days_summary` — its 3-day cue
list contains `"next three"` — while the horizon extractor, whose cue list does
not, returns `"now"`; formatting the resulting parsed request yields the
generic capability-description fallback rather than any 3-day forecast. -/
theorem cue_set_divergence :
    predict_intent_rules "next three" = "next3days_summary" ∧
    (extract_time_window "next three").1 = "now" ∧
    interpret_message none none "next three" (some "Berlin") none none =
      { intent := "next3days_summary", horizon := "now", tod := none, coords := none,
        location_label := some "Berlin", sentiment := none, error := none } ∧
    format_weather_reply (interpret_message none none "next three" (some "Berlin") none none)
      emptyBundle "Berlin" = some FALLBACK_TEXT := by
  refine ⟨by decide, by decide, by decide, by decide⟩

/-- C2 counterexample: a parsed request with intent `help` but horizon
`tomorrow` is served by the tomorrow branch, which precedes the help branch,
so the reply is the tomorrow fallback, not the fixed usage message. -/
theorem help_horizon_cx :
    format_weather_reply ⟨"help", "tomorrow", none, none, none, none, none⟩ emptyBundle "Paris"
      = some TOMORROW_FALLBACK ∧ TOMORROW_FALLBACK ≠ HELP_TEXT :=
  ⟨by decide, by decide⟩

/-- C2 (amended): for every parsed request whose intent is `help` and whose
horizon is `now` (so that no horizon branch fires), and for every bundle and
location label, `format` returns the fixed multi-line usage message,
independent of every other field of the request and of the bundle. -/
theorem help_template_now (p : ParsedRequest) (b : ForecastBundle) (l : String)
    (h1 : p.intent = "help") (h2 : p.horizon = "now") :
    format_weather_reply p b l = some HELP_TEXT := by
  obtain ⟨i, hz, td, co, lo, se, er⟩ := p
  dsimp only at h1 h2
  subst h1 h2
  unfold format_weather_reply
  dsimp only
  rw [if_neg (by decide : ¬((("help" : String) ∈ NOW_INTENTS) ∧ ("now" : String) = "now"))]
  rw [if_neg (by decide : ¬(("now" : String) = "tomorrow"))]
  rw [if_neg (by decide : ¬(("now" : String) = "next3days"))]
  rw [if_neg (by decide : ¬(("now" : String) = "week"))]
  rw [if_pos rfl]

/-- Witness for C2's amended theorem at a concrete request and bundle. -/
theorem help_template_now_witness :
    format_weather_reply ⟨"help", "now", none, none, none, none, none⟩ emptyBundle "Paris"
      = some HELP_TEXT :=
  help_template_now _ _ _ rfl rfl

/-- C9: `format` and the rule-stage `classify` are pure functions of their
arguments — the embedding carries no state, mirroring that the source reads
only its parameters and the immutable module tables — so two runs on equal
inputs return equal replies and equal intent labels. -/
theorem format_classify_deterministic :
    (∀ p₁ p₂ b₁ b₂ l₁ l₂, p₁ = p₂ → b₁ = b₂ → l₁ = l₂ →
      format_weather_reply p₁ b₁ l₁ = format_weather_reply p₂ b₂ l₂) ∧
    (∀ s₁ s₂ : String, s₁ = s₂ → predict_intent_rules s₁ = predict_intent_rules s₂) :=
  ⟨fun _ _ _ _ _ _ hp hb hl => by rw [hp, hb, hl], fun _ _ hs => by rw [hs]⟩

/-- Witness for C9 at concrete equal inputs. -/
theorem format_classify_deterministic_witness :
    format_weather_reply ⟨"help", "now", none, none, none, none, none⟩ emptyBundle "X" =
      format_weather_reply ⟨"help", "now", none, none, none, none, none⟩ emptyBundle "X" ∧
    predict_intent_rules "rain" = predict_intent_rules "rain" :=
  ⟨format_classify_deterministic.1 _ _ _ _ _ _ rfl rfl rfl,
   format_classify_deterministic.2 "rain" "rain" rfl⟩

/-- C8: numeric rendering in the "right now" block.  Temperature, rain and
snow are rendered at 1 decimal place and wind, humidity (and, in the tomorrow
templates, precipitation probability) at 0 decimal places, each with its unit
suffix; in particular a current temperature of `21.46 = mkRat 2146 100`
renders as `21.5°C` for a `temperature_now`/`now` request. -/
theorem now_block_precision :
    format_weather_reply (nowReq "temperature_now") ⟨curTempC (mkRat 2146 100), [], []⟩ "Lisbon" =
      some "**Lisbon** right now:\n- Temperature: **21.5°C**\n- Conditions: **unknown**" ∧
    (∀ t : Rat, format_weather_reply (nowReq "temperature_now") ⟨curTempC t, [], []⟩ "L" =
      some (String.intercalate "\n"
        ["**L** right now:", "- Temperature: **" ++ fmtF t 1 ++ "°C**",
         "- Conditions: **unknown**"])) ∧
    (∀ w : Rat, format_weather_reply (nowReq "wind_now") ⟨curWindC w, [], []⟩ "L" =
      some (String.intercalate "\n"
        ["**L** right now:", "- Wind: **" ++ fmtF w 0 ++ " km/h**"])) ∧
    (∀ h : Rat, format_weather_reply (nowReq "humidity_now") ⟨curHumC h, [], []⟩ "L" =
      some (String.intercalate "\n"
        ["**L** right now:", "- Humidity: **" ++ fmtF h 0 ++ "%**"])) ∧
    (∀ r : Rat, format_weather_reply (nowReq "rain_now") ⟨curRainC r, [], []⟩ "L" =
      some (String.intercalate "\n"
        ["**L** right now:", "- Rain (last hour): **" ++ fmtF r 1 ++ " mm**"])) ∧
    (∀ s : Rat, format_weather_reply (nowReq "snow_now") ⟨curSnowC s, [], []⟩ "L" =
      some (String.intercalate "\n"
        ["**L** right now:", "- Snowfall (last hour): **" ++ fmtF s 1 ++ " mm**"])) :=
  ⟨by decide, fun _ => rfl, fun _ => rfl, fun _ => rfl, fun _ => rfl, fun _ => rfl⟩

/-- C6: for every parsed request and bundle, a horizon template with fewer
daily entries than it needs returns its literal fallback string — a reply, not
an exception. -/
theorem format_insufficient_data (p : ParsedRequest) (b : ForecastBundle) (l : String) :
    (p.horizon = "week" → b.daily.length < 7 →
      format_weather_reply p b l = some WEEK_FALLBACK) ∧
    (p.horizon = "tomorrow" → b.daily.length < 2 →
      format_weather_reply p b l = some TOMORROW_FALLBACK) ∧
    (p.horizon = "next3days" → b.daily.length < 3 →
      format_weather_reply p b l = some NEXT3_FALLBACK) := by
  obtain ⟨i, hz, td, co, lo, se, er⟩ := p
  obtain ⟨cur, daily, hourly⟩ := b
  dsimp only
  refine ⟨?_, ?_, ?_⟩
  · intro h1 h2
    subst h1
    unfold format_weather_reply
    dsimp only
    rw [if_neg (fun hc => absurd hc.2 (by decide : ¬(("week" : String) = "now")))]
    rw [if_neg (by decide : ¬(("week" : String) = "tomorrow"))]
    rw [if_neg (by decide : ¬(("week" : String) = "next3days"))]
    rw [if_pos rfl, if_pos h2]
  · intro h1 h2
    subst h1
    unfold format_weather_reply
    dsimp only
    rw [if_neg (fun hc => absurd hc.2 (by decide : ¬(("tomorrow" : String) = "now")))]
    rw [if_pos rfl]
    match daily, h2 with
    | [], _ => rfl
    | [d], _ => rfl
    | d0 :: d1 :: t, h2 => simp [List.length_cons] at h2; omega
  · intro h1 h2
    subst h1
    unfold format_weather_reply
    dsimp only
    rw [if_neg (fun hc => absurd hc.2 (by decide : ¬(("next3days" : String) = "now")))]
    rw [if_neg (by decide : ¬(("next3days" : String) = "tomorrow"))]
    rw [if_pos rfl, if_pos h2]

/-- Witness for C6: the spec's own example, a week request over a 3-entry
daily list, renders the literal weekly-fallback string. -/
theorem format_insufficient_data_witness :
    format_weather_reply ⟨"week_summary", "week", none, none, none, none, none⟩
      ⟨emptyCurrent, [⟨"d1", none, none, none, none, 0, 0⟩, ⟨"d2", none, none, none, none, 0, 0⟩,
        ⟨"d3", none, none, none, none, 0, 0⟩], []⟩ "Paris" = some WEEK_FALLBACK :=
  (format_insufficient_data _ _ _).1 rfl (by decide)

/-- C3 counterexample: a bundle of the documented shape in which the
second daily entry has `tmin_c` absent makes the tomorrow-summary template
format `None` with `:.1f`, which raises — modelled as `none` — so `format`
is not total over bundles with absent daily numeric fields. -/
theorem format_raises_cx :
    format_weather_reply ⟨"tomorrow_summary", "tomorrow", none, none, none, none, none⟩
      ⟨emptyCurrent, [⟨"2026-10-10", some 20, some 10, some 61, some 55, 0, 0⟩,
        ⟨"2026-10-11", some 21, none, some 61, some 55, 0, 0⟩], []⟩ "Paris" = none := by
  decide

/-- If every element renders, so does the mapped list. -/
theorem mapOpt_isSome {α β : Type} (f : α → Option β) :
    ∀ xs : List α, (∀ x ∈ xs, (f x).isSome = true) → (mapOpt f xs).isSome = true := by
  intro xs
  induction xs with
  | nil => intro _; rfl
  | cons x t ih =>
    intro h
    have hx := h x (List.mem_cons_self x t)
    have ht := ih (fun y hy => h y (List.mem_cons_of_mem x hy))
    obtain ⟨y, hy⟩ := Option.isSome_iff_exists.mp hx
    obtain ⟨ys, hys⟩ := Option.isSome_iff_exists.mp ht
    unfold mapOpt
    rw [hy, hys]
    rfl

/-- C3 (amended): `format` returns a reply string without raising for every
parsed request and location label, and every bundle whose daily entries all
carry `tmin_c`, `tmax_c` and `precip_prob_max`; absent current-reading values
are omitted from the "right now" block rather than causing a failure (the
right-now branch succeeds for every current record, as the proof's first case
shows).  A daily entry used by the tomorrow/3-day/week templates with one of
those three fields absent raises (`format_raises_cx`). -/
theorem format_total_amended (p : ParsedRequest) (b : ForecastBundle) (l : String)
    (hdaily : ∀ d ∈ b.daily, d.tmin_c.isSome = true ∧ d.tmax_c.isSome = true ∧
      d.precip_prob_max.isSome = true) :
    (format_weather_reply p b l).isSome = true := by
  obtain ⟨i, hz, td, co, lo, se, er⟩ := p
  obtain ⟨cur, daily, hourly⟩ := b
  dsimp only at hdaily ⊢
  unfold format_weather_reply
  dsimp only
  by_cases h1 : i ∈ NOW_INTENTS ∧ hz = "now"
  · rw [if_pos h1]; rfl
  · rw [if_neg h1]
    by_cases h2 : hz = "tomorrow"
    · rw [if_pos h2]
      match daily, hdaily with
      | [], _ => rfl
      | [d], _ => rfl
      | d0 :: d :: rest, hdaily =>
        obtain ⟨ht, hx, hp⟩ := hdaily d (List.mem_cons_of_mem d0 (List.mem_cons_self d rest))
        obtain ⟨tmin, htmin⟩ := Option.isSome_iff_exists.mp ht
        obtain ⟨tmax, htmax⟩ := Option.isSome_iff_exists.mp hx
        obtain ⟨pop, hpop⟩ := Option.isSome_iff_exists.mp hp
        dsimp only
        by_cases h3 : i = "tomorrow_rain"
        · rw [if_pos h3]; rfl
        · rw [if_neg h3]
          split
          · rfl
          · rw [htmin, htmax, hpop]; rfl
    · rw [if_neg h2]
      by_cases h3 : hz = "next3days"
      · rw [if_pos h3]
        by_cases h4 : daily.length < 3
        · rw [if_pos h4]; rfl
        · rw [if_neg h4]
          have hm := mapOpt_isSome (fun d =>
            match d.tmin_c, d.tmax_c with
            | some a, some b =>
              some ("- " ++ d.date ++ ": " ++ wdescOf d.weather_code ++ ", " ++
                fmtF a 1 ++ "–" ++ fmtF b 1 ++ "°C, rain " ++ fmtF d.rain_mm 1 ++ " mm")
            | _, _ => none) (daily.take 3) ?_
          · obtain ⟨ls, hls⟩ := Option.isSome_iff_exists.mp hm
            rw [hls]; rfl
          · intro d hd
            obtain ⟨ht, hx, _⟩ := hdaily d (List.take_subset 3 daily hd)
            obtain ⟨tmin, htmin⟩ := Option.isSome_iff_exists.mp ht
            obtain ⟨tmax, htmax⟩ := Option.isSome_iff_exists.mp hx
            dsimp only
            rw [htmin, htmax]
            rfl
      · rw [if_neg h3]
        by_cases h5 : hz = "week"
        · rw [if_pos h5]
          by_cases h6 : daily.length < 7
          · rw [if_pos h6]; rfl
          · rw [if_neg h6]
            have hm := mapOpt_isSome (fun d =>
              match d.tmin_c, d.tmax_c with
              | some a, some b =>
                some ("- " ++ d.date ++ ": " ++ wdescOf d.weather_code ++ ", " ++
                  fmtF a 1 ++ "–" ++ fmtF b 1 ++ "°C")
              | _, _ => none) (daily.take 7) ?_
            · obtain ⟨ls, hls⟩ := Option.isSome_iff_exists.mp hm
              rw [hls]; rfl
            · intro d hd
              obtain ⟨ht, hx, _⟩ := hdaily d (List.take_subset 7 daily hd)
              obtain ⟨tmin, htmin⟩ := Option.isSome_iff_exists.mp ht
              obtain ⟨tmax, htmax⟩ := Option.isSome_iff_exists.mp hx
              dsimp only
              rw [htmin, htmax]
              rfl
        · rw [if_neg h5]
          by_cases h7 : i = "help"
          · rw [if_pos h7]; rfl
          · rw [if_neg h7]; rfl

/-- Witness for C3's amended theorem: a tomorrow request over two fully
populated daily entries renders without failure. -/
theorem format_total_amended_witness :
    (format_weather_reply ⟨"tomorrow_summary", "tomorrow", none, none, none, none, none⟩
      ⟨emptyCurrent, [⟨"2026-10-10", some 20, some 10, some 61, some 55, 0, 0⟩,
        ⟨"2026-10-11", some 21, some 11, some 61, some 55, 0, 0⟩], []⟩ "Paris").isSome = true :=
  format_total_amended _ _ _ (by decide)

/-- An optional string is falsy exactly when it is `None` or empty. -/
theorem pyFalsy_iff (b : Option String) :
    pyTruthy b = false ↔ (b = none ∨ b = some "") := by
  cases b with
  | none => simp [pyTruthy]
  | some t =>
    simp only [pyTruthy, Bool.not_eq_false', beq_iff_eq]
    constructor
    · intro h; exact Or.inr (by rw [h])
    · intro h
      rcases h with h | h
      · exact Option.noConfusion h
      · exact Option.some.inj h

/-- `a or b` is falsy exactly when both operands are falsy. -/
theorem pyOr_falsy (a b : Option String) :
    pyTruthy (pyOr a b) = false ↔
      ((a = none ∨ a = some "") ∧ (b = none ∨ b = some "")) := by
  unfold pyOr
  by_cases ha : pyTruthy a = true
  · rw [if_pos ha]
    constructor
    · intro h; rw [ha] at h; exact Bool.noConfusion h
    · intro h
      have := (pyFalsy_iff a).mpr h.1
      rw [ha] at this; exact Bool.noConfusion this
  · have ha' : pyTruthy a = false := Bool.eq_false_iff.mpr ha
    rw [if_neg ha]
    rw [pyFalsy_iff b]
    constructor
    · intro h; exact ⟨(pyFalsy_iff a).mp ha', h⟩
    · intro h; exact h.2

/-- A malformed (non-parseable) latitude or longitude makes the coordinate
pair absent. -/
theorem pyCoords_malformed (lat lon : Option (Option Rat))
    (h : lat = some none ∨ lon = some none) : pyCoords lat lon = none := by
  rcases h with h | h
  · subst h
    cases lon with
    | none => rfl
    | some lo => rfl
  · subst h
    cases lat with
    | none => rfl
    | some la => cases la <;> rfl

/-- C4: `interpret_message` is total (it is a Lean function), its `error`
field is either `null` or the fixed missing-location prompt, and it is the
prompt exactly when no coordinate pair resolves and the resolved location is
falsy — neither extracted from the message nor supplied as a (non-empty)
remembered location; intent, horizon, time-of-day and sentiment are populated
from the message in every case, and a non-parseable `lat`/`lon` value makes
`coords` absent without itself setting the error. -/
theorem interpret_error_contract (model : Option (String → Option String))
    (sia : Option (String → Rat)) (message : String)
    (last_location : Option String) (lat lon : Option (Option Rat)) :
    ((interpret_message model sia message last_location lat lon).error = none ∨
      (interpret_message model sia message last_location lat lon).error = some ERROR_PROMPT) ∧
    ((interpret_message model sia message last_location lat lon).error = some ERROR_PROMPT ↔
      (pyCoords lat lon = none ∧
       (extract_location (pyStrip message) = none ∨ extract_location (pyStrip message) = some "") ∧
       (last_location = none ∨ last_location = some ""))) ∧
    (interpret_message model sia message last_location lat lon).intent
      = classify model (pyStrip message) ∧
    (interpret_message model sia message last_location lat lon).horizon
      = (extract_time_window (pyStrip message)).1 ∧
    (interpret_message model sia message last_location lat lon).tod
      = (extract_time_window (pyStrip message)).2 ∧
    (interpret_message model sia message last_location lat lon).sentiment
      = sentiment sia (pyStrip message) ∧
    ((lat = some none ∨ lon = some none) →
      (interpret_message model sia message last_location lat lon).coords = none) := by
  unfold interpret_message
  dsimp only
  by_cases hc : pyCoords lat lon = none ∧
      pyTruthy (pyOr (extract_location (pyStrip message)) last_location) = false
  · rw [if_pos hc]
    refine ⟨Or.inr rfl, ?_, rfl, rfl, rfl, rfl, fun _ => rfl⟩
    constructor
    · intro _
      obtain ⟨he, hl⟩ := (pyOr_falsy _ _).mp hc.2
      exact ⟨hc.1, he, hl⟩
    · intro _; rfl
  · rw [if_neg hc]
    refine ⟨Or.inl rfl, ?_, rfl, rfl, rfl, rfl, ?_⟩
    · constructor
      · intro h; exact Option.noConfusion h
      · intro h
        exact absurd ⟨h.1, (pyOr_falsy _ _).mpr ⟨h.2.1, h.2.2⟩⟩ hc
    · intro h
      exact pyCoords_malformed lat lon h

/-- Witness for C4: the spec's own example — message `"temperature"`, no
remembered location, malformed coordinates — yields the fixed prompt, absent
coords and a populated intent. -/
theorem interpret_error_contract_witness :
    (interpret_message none none "temperature" none (some none) (some none)).error
      = some ERROR_PROMPT ∧
    (interpret_message none none "temperature" none (some none) (some none)).coords = none ∧
    (interpret_message none none "temperature" none (some none) (some none)).intent
      = "temperature_now" := by
  have h := interpret_error_contract none none "temperature" none (some none) (some none)
  refine ⟨(h.2.1).mpr ⟨by decide, by decide, Or.inl rfl⟩,
    h.2.2.2.2.2.2 (Or.inl rfl), ?_⟩
  rw [h.2.2.1]
  decide
